import Mathlib

/-!
Shallow embedding of the transaction view pipeline of the
Nest-React-Assessment frontend: filtering (`app/transactions/page.tsx`),
sorting and pagination (`components/transactions/TransactionList.tsx`),
formatting (`lib/utils/format.ts`), export (`lib/utils/export.ts`,
`InlineFilters`) and the debounced search bar (`SearchBar`).

JavaScript numbers appearing in the pipeline are either an ordinary
finite value or NaN.  The finite values that ever arise here are exact
decimal fractions (parsed amount strings, epoch milliseconds), so they
are modelled by an explicit fraction `Frac` (integer numerator, power of
ten denominator, kept unnormalised so every operation is plain integer
arithmetic and all statements are decidable), wrapped in `JSNum` with a
NaN constructor.  Every numeric comparison involving NaN is false,
exactly as in JavaScript.
-/

/-- Exact fraction: `num / den`.  All constructors used by the embedding
produce a positive power of ten as denominator. -/
structure Frac where
  num : ℤ
  den : ℕ
deriving DecidableEq

/-- The fraction `n / 1`. -/
def Frac.ofInt (n : ℤ) : Frac := ⟨n, 1⟩

/-- Comparison `a < b` by cross multiplication (denominators here are
always positive). -/
def Frac.ltb (a b : Frac) : Bool := decide (a.num * (b.den : ℤ) < b.num * (a.den : ℤ))

/-- Comparison `a ≤ b` by cross multiplication. -/
def Frac.leb (a b : Frac) : Bool := decide (a.num * (b.den : ℤ) ≤ b.num * (a.den : ℤ))

/-- Exact product of two fractions. -/
def Frac.mul (a b : Frac) : Frac := ⟨a.num * b.num, a.den * b.den⟩

/-- Model of a JavaScript number as used by the pipeline: an ordinary
finite value or NaN. -/
inductive JSNum where
  | nan : JSNum
  | num : Frac → JSNum
deriving DecidableEq

/-- JavaScript `<` on numbers: false whenever either side is NaN. -/
def JSNum.ltb : JSNum → JSNum → Bool
  | .num x, .num y => Frac.ltb x y
  | _, _ => false

/-- JavaScript `>` on numbers: false whenever either side is NaN. -/
def JSNum.gtb (a b : JSNum) : Bool := JSNum.ltb b a

/-- JavaScript `>=` on numbers: false whenever either side is NaN. -/
def JSNum.geb : JSNum → JSNum → Bool
  | .num x, .num y => Frac.leb y x
  | _, _ => false

/-- JavaScript `<=` on numbers: false whenever either side is NaN. -/
def JSNum.leb : JSNum → JSNum → Bool
  | .num x, .num y => Frac.leb x y
  | _, _ => false

/-- JavaScript multiplication: NaN propagates. -/
def JSNum.mul : JSNum → JSNum → JSNum
  | .num x, .num y => .num (Frac.mul x y)
  | _, _ => .nan

/-- Numeric value of a run of decimal digit characters. -/
def digitsToNat (ds : List Char) : ℕ :=
  ds.foldl (fun a c => 10 * a + (c.toNat - 48)) 0

/-- Model of JavaScript `parseFloat` restricted to the plain decimal
literals this repository feeds it (amount, gasLimit, gasPrice strings):
optional leading spaces, an optional sign, integer digits, an optional
fractional part; any remaining suffix is ignored, and a string with no
leading digits at all parses to NaN. -/
def parseFloat (s : String) : JSNum :=
  let cs := s.toList.dropWhile (fun c => c = ' ')
  let signed : Bool × List Char :=
    match cs with
    | '-' :: rest => (true, rest)
    | '+' :: rest => (false, rest)
    | _ => (false, cs)
  let ip := signed.2.takeWhile Char.isDigit
  let afterIp := signed.2.dropWhile Char.isDigit
  let fp : List Char :=
    match afterIp with
    | '.' :: rest => rest.takeWhile Char.isDigit
    | _ => []
  if ip.isEmpty && fp.isEmpty then .nan
  else
    let mag : ℤ := (digitsToNat ip : ℤ) * (10 : ℤ) ^ fp.length + (digitsToNat fp : ℤ)
    .num ⟨if signed.1 then -mag else mag, 10 ^ fp.length⟩

example : parseFloat "1.5" = .num ⟨15, 10⟩ := by decide
example : parseFloat "x" = .nan := by decide
example : parseFloat "-1" = .num ⟨-1, 1⟩ := by decide
example : parseFloat "10" = .num ⟨10, 1⟩ := by decide

/-!
Model of the JavaScript `Date` constructor on the ISO-8601 strings the
repository stores in `timestamp` / `createdAt` ("YYYY-MM-DD" and
"YYYY-MM-DDTHH:MM:SS[.mmm]Z"), yielding epoch milliseconds, and NaN for
any other string (`new Date(s).getTime()` of an invalid date).
-/

/-- Number of days from 1970-01-01 to the given civil date (standard
days-from-civil computation; all divisions act on non-negative values). -/
def daysFromCivil (y m d : ℤ) : ℤ :=
  let yy := if m ≤ 2 then y - 1 else y
  let era := (if 0 ≤ yy then yy else yy - 399) / 400
  let yoe := yy - era * 400
  let mp := (m + 9) % 12
  let doy := (153 * mp + 2) / 5 + d - 1
  let doe := yoe * 365 + yoe / 4 - yoe / 100 + doy
  era * 146097 + doe - 719468

/-- Parse exactly `n` decimal digits from the front of a character list. -/
def parseNDigits (n : ℕ) (cs : List Char) : Option (ℕ × List Char) :=
  let ds := cs.take n
  if ds.length = n && ds.all Char.isDigit then some (digitsToNat ds, cs.drop n)
  else none

/-- Number of days in a month of a given year. -/
def daysInMonth (y m : ℤ) : ℤ :=
  if m = 2 then (if y % 4 = 0 && (y % 100 ≠ 0 || y % 400 = 0) then 29 else 28)
  else if m = 4 || m = 6 || m = 9 || m = 11 then 30
  else 31

/-- Parse the optional time-of-day suffix "THH:MM:SS[.mmm]Z"; an empty
rest means midnight. Returns milliseconds into the day. -/
def parseTimeOfDay (cs : List Char) : Option ℕ :=
  match cs with
  | [] => some 0
  | 'T' :: rest =>
    match parseNDigits 2 rest with
    | none => none
    | some (h, r1) =>
      match r1 with
      | ':' :: r2 =>
        match parseNDigits 2 r2 with
        | none => none
        | some (mi, r3) =>
          match r3 with
          | ':' :: r4 =>
            match parseNDigits 2 r4 with
            | none => none
            | some (ss, r5) =>
              let msPart : Option (ℕ × List Char) :=
                match r5 with
                | '.' :: r6 => parseNDigits 3 r6
                | _ => some (0, r5)
              match msPart with
              | none => none
              | some (ms, r7) =>
                if r7 = ['Z'] && h < 24 && mi < 60 && ss < 60 then
                  some (((h * 60 + mi) * 60 + ss) * 1000 + ms)
                else none
          | _ => none
      | _ => none
  | _ => none

/-- Model of `new Date(s).getTime()` for the ISO-8601 strings used by the
repository; NaN for anything else (invalid date). -/
def jsDateMs (s : String) : JSNum :=
  let cs := s.toList
  match parseNDigits 4 cs with
  | none => .nan
  | some (y, r1) =>
    match r1 with
    | '-' :: r2 =>
      match parseNDigits 2 r2 with
      | none => .nan
      | some (mo, r3) =>
        match r3 with
        | '-' :: r4 =>
          match parseNDigits 2 r4 with
          | none => .nan
          | some (dy, r5) =>
            if 1 ≤ mo && mo ≤ 12 && 1 ≤ dy && (dy : ℤ) ≤ daysInMonth y mo then
              match parseTimeOfDay r5 with
              | none => .nan
              | some ms => .num (Frac.ofInt (daysFromCivil y mo dy * 86400000 + ms))
            else .nan
        | _ => .nan
    | _ => .nan

example : jsDateMs "" = .nan := by decide
example : jsDateMs "bad" = .nan := by decide
example : jsDateMs "1970-01-02" = .num (Frac.ofInt 86400000) := by decide
example : jsDateMs "1970-01-01T00:00:01Z" = .num (Frac.ofInt 1000) := by decide

/-!
String helpers modelling the JavaScript string operations used by the
pipeline, plus JavaScript truthiness on optional strings (`undefined`
and the empty string are falsy).
-/

/-- JavaScript `String.prototype.toLowerCase` on the ASCII strings used
here (hashes, hex addresses, search queries). -/
def toLowerJS (s : String) : String := String.mk (s.toList.map Char.toLower)

/-- JavaScript `String.prototype.includes`: contiguous substring test. -/
def strIncludes (hay needle : String) : Bool :=
  let h := hay.toList
  let n := needle.toList
  (List.range (h.length + 1)).any (fun i => n.isPrefixOf (h.drop i))

example : strIncludes "abcdef" "cde" = true := by decide
example : strIncludes "abcdef" "" = true := by decide
example : strIncludes "abc" "ac" = false := by decide

/-- Truthiness of an optional string: `undefined` and `""` are falsy. -/
def truthyO : Option String → Bool
  | none => false
  | some s => decide (s ≠ "")

/-- JavaScript `a || d` for an optional string `a` and a string default. -/
def jsOr (a : Option String) (d : String) : String :=
  match a with
  | some s => if s = "" then d else s
  | none => d

/-- JavaScript `a || b` where both sides are optional strings. -/
def jsOrOpt (a b : Option String) : Option String :=
  if truthyO a then a else b

/-- JavaScript `s.charAt(0).toUpperCase() + s.slice(1)`. -/
def capitalize (s : String) : String :=
  match s.toList with
  | [] => ""
  | c :: rest => String.mk (c.toUpper :: rest)

example : capitalize "pending" = "Pending" := by decide

/-!
Data model (`types/transaction.ts`): the transaction record and the
status enumeration.
-/

/-- Transaction status enumeration; the literal string values are
`pending`, `confirmed`, `failed`. -/
inductive TransactionStatus where
  | pending : TransactionStatus
  | confirmed : TransactionStatus
  | failed : TransactionStatus
deriving DecidableEq

/-- The literal string value of a status. -/
def statusStr : TransactionStatus → String
  | .pending => "pending"
  | .confirmed => "confirmed"
  | .failed => "failed"

/-- Transaction record (`types/transaction.ts`); identifier fields are
omitted since no claim concerns them. -/
structure Transaction where
  hash : String
  fromAddress : String
  toAddress : String
  amount : String
  status : TransactionStatus
  gasLimit : Option String := none
  gasPrice : Option String := none
  timestamp : Option String := none
  createdAt : Option String := none
deriving DecidableEq

/-- Effective time string: `tx.timestamp || tx.createdAt || ''`. -/
def effTimeStr (t : Transaction) : String :=
  jsOr t.timestamp (jsOr t.createdAt "")

/-- Effective time of a transaction as used for filtering and sorting:
`new Date(tx.timestamp || tx.createdAt || '').getTime()`. -/
def effTime (t : Transaction) : JSNum := jsDateMs (effTimeStr t)

/-!
Filter pipeline (`app/transactions/page.tsx`, `filteredTransactions`):
four sequential stages — status multi-select, dateFrom bound, dateTo
bound (advanced to end of day), free-text search.  Calendar-picked
`Date` objects are modelled by their epoch milliseconds.
-/

/-- Filter portion of the view state owned by the page controller. -/
structure ViewState where
  selectedStatuses : List TransactionStatus
  dateFrom : Option ℤ
  dateTo : Option ℤ
  searchQuery : String
deriving DecidableEq

/-- Model of `toDate.setHours(23, 59, 59, 999)` applied to a copy of the
`dateTo` bound: the end of that civil day (the model fixes the UTC
offset, matching a browser running in UTC). -/
def endOfDay (t : ℤ) : ℤ := Int.fdiv t 86400000 * 86400000 + 86399999

/-- Status stage: `if (selectedStatuses.length > 0) filter(membership)`. -/
def statusStage (vs : ViewState) (l : List Transaction) : List Transaction :=
  if vs.selectedStatuses.length > 0 then
    l.filter (fun tx => vs.selectedStatuses.contains tx.status)
  else l

/-- dateFrom stage: `if (dateFrom) filter(txDate >= dateFrom)`. -/
def dateFromStage (vs : ViewState) (l : List Transaction) : List Transaction :=
  match vs.dateFrom with
  | some f => l.filter (fun tx => JSNum.geb (effTime tx) (.num (Frac.ofInt f)))
  | none => l

/-- dateTo stage: `if (dateTo) filter(txDate <= endOfDay(dateTo))`. -/
def dateToStage (vs : ViewState) (l : List Transaction) : List Transaction :=
  match vs.dateTo with
  | some d => l.filter (fun tx => JSNum.leb (effTime tx) (.num (Frac.ofInt (endOfDay d))))
  | none => l

/-- Search stage: `if (searchQuery) filter(lower-cased substring match
on hash, fromAddress or toAddress)`. -/
def searchStage (vs : ViewState) (l : List Transaction) : List Transaction :=
  if vs.searchQuery ≠ "" then
    let query := toLowerJS vs.searchQuery
    l.filter (fun tx =>
      strIncludes (toLowerJS tx.hash) query ||
      strIncludes (toLowerJS tx.fromAddress) query ||
      strIncludes (toLowerJS tx.toAddress) query)
  else l

/-- The filtered collection, exactly as `filteredTransactions` computes
it: the four stages applied in source order. -/
def filteredTransactions (txs : List Transaction) (vs : ViewState) : List Transaction :=
  searchStage vs (dateToStage vs (dateFromStage vs (statusStage vs txs)))

/-!
Claim-side single predicate (spec section 4.1): conjunction of the
status criterion, the date-range criterion, and the search criterion.
-/

/-- Status criterion as the spec states it: empty selection passes all,
otherwise membership. -/
def statusPassB (vs : ViewState) (tx : Transaction) : Bool :=
  vs.selectedStatuses.isEmpty || vs.selectedStatuses.contains tx.status

/-- Date-range criterion as the spec states it: effective time within
the active bounds, a transaction with no parseable time failing any
active bound. -/
def datePassB (vs : ViewState) (tx : Transaction) : Bool :=
  match effTime tx with
  | .nan => vs.dateFrom.isNone && vs.dateTo.isNone
  | .num t =>
    (match vs.dateFrom with
     | some f => Frac.leb (Frac.ofInt f) t
     | none => true) &&
    (match vs.dateTo with
     | some d => Frac.leb t (Frac.ofInt (endOfDay d))
     | none => true)

/-- Search criterion as the spec states it: empty query passes all,
otherwise case-insensitive substring match on hash, fromAddress or
toAddress. -/
def searchPassB (vs : ViewState) (tx : Transaction) : Bool :=
  vs.searchQuery = "" ||
  (strIncludes (toLowerJS tx.hash) (toLowerJS vs.searchQuery) ||
   strIncludes (toLowerJS tx.fromAddress) (toLowerJS vs.searchQuery) ||
   strIncludes (toLowerJS tx.toAddress) (toLowerJS vs.searchQuery))

/-- The composed predicate of spec section 4.1. -/
def passesB (vs : ViewState) (tx : Transaction) : Bool :=
  statusPassB vs tx && datePassB vs tx && searchPassB vs tx

/-!
Sorting (`TransactionList.tsx`): the comparator over sort field and
direction.  Unparseable dates and amounts yield NaN keys, for which both
`<` and `>` are false, so the comparator returns 0.
-/

/-- Sort field enumeration (`types/transaction.ts`). -/
inductive SortField where
  | timestamp : SortField
  | amount : SortField
  | status : SortField
deriving DecidableEq

/-- Sort direction enumeration. -/
inductive SortDirection where
  | asc : SortDirection
  | desc : SortDirection
deriving DecidableEq

/-- Numeric comparator core: `if (a < b) return asc ? -1 : 1; if (a > b)
return asc ? 1 : -1; return 0`. -/
def cmpNum (d : SortDirection) (a b : JSNum) : ℤ :=
  if JSNum.ltb a b then (match d with | .asc => -1 | .desc => 1)
  else if JSNum.gtb a b then (match d with | .asc => 1 | .desc => -1)
  else 0

/-- String comparator core, used for the `status` field (JavaScript `<`
on the literal status strings). -/
def cmpStr (d : SortDirection) (a b : String) : ℤ :=
  if a < b then (match d with | .asc => -1 | .desc => 1)
  else if b < a then (match d with | .asc => 1 | .desc => -1)
  else 0

/-- The sort comparator of `TransactionList.tsx`: switch on the sort
field, take the two key values, compare. -/
def compareTx (f : SortField) (d : SortDirection) (a b : Transaction) : ℤ :=
  match f with
  | .timestamp => cmpNum d (effTime a) (effTime b)
  | .amount => cmpNum d (parseFloat a.amount) (parseFloat b.amount)
  | .status => cmpStr d (statusStr a.status) (statusStr b.status)

/-- Claim-side reading of the comparator (spec section 4.2): an
unparseable date key is the fixed sentinel epoch 0 and an unparseable
amount key is the value 0. -/
def sentinel0 (x : JSNum) : JSNum :=
  match x with
  | .nan => .num (Frac.ofInt 0)
  | .num q => .num q

/-- Comparator as the spec describes it: NaN keys replaced by 0 before
comparing. -/
def compareTxClaim (f : SortField) (d : SortDirection) (a b : Transaction) : ℤ :=
  match f with
  | .timestamp => cmpNum d (sentinel0 (effTime a)) (sentinel0 (effTime b))
  | .amount => cmpNum d (sentinel0 (parseFloat a.amount)) (sentinel0 (parseFloat b.amount))
  | .status => cmpStr d (statusStr a.status) (statusStr b.status)

/-!
Pagination (`TransactionList.tsx`): `totalPages = Math.ceil(length /
itemsPerPage)`, `paginatedTransactions = sorted.slice((page-1)*ipp,
page*ipp)`.
-/

/-- Page count as the code computes it: `Math.ceil(n / itemsPerPage)`
(for positive `itemsPerPage`). -/
def totalPages (n ipp : ℕ) : ℕ := (n + ipp - 1) / ipp

/-- Page count as the spec states it: `max(1, ceil(n / itemsPerPage))`. -/
def totalPagesClaim (n ipp : ℕ) : ℕ := max 1 ((n + ipp - 1) / ipp)

/-- The visible slice: `sorted.slice((currentPage-1)*ipp, currentPage*ipp)`. -/
def paginatedTransactions {α : Type} (xs : List α) (currentPage ipp : ℕ) : List α :=
  (xs.drop ((currentPage - 1) * ipp)).take ipp

example : totalPages 37 15 = 3 := by decide
example : totalPages 0 15 = 0 := by decide

/-!
Formatters (`lib/utils/format.ts`): `formatAmount` and `formatFullDate`
(the pieces the claims touch).  Decimal rendering of the exact fraction
values mirrors `Number.prototype.toFixed` and
`Number.prototype.toLocaleString('en-US', ...)`.
-/

/-- Decimal digits of `v` left-padded with zeros to length `f`. -/
def padZeros (f : ℕ) (v : ℕ) : String :=
  let s := toString v
  String.mk (List.replicate (f - s.length) '0') ++ s

/-- Floor of `|q| * 10^f + 1/2` for a fraction with positive
denominator: the half-up rounding used by `toFixed`. -/
def roundScaled (q : Frac) (f : ℕ) : ℕ :=
  (2 * (q.num.natAbs * 10 ^ f) + q.den) / (2 * q.den)

/-- Model of `x.toFixed(f)`: NaN renders as "NaN", otherwise sign
followed by the half-up rounded magnitude with exactly `f` fraction
digits. -/
def toFixed (f : ℕ) (x : JSNum) : String :=
  match x with
  | .nan => "NaN"
  | .num q =>
    let n := roundScaled q f
    let sign := if q.num < 0 then "-" else ""
    sign ++ toString (n / 10 ^ f) ++ (if f = 0 then "" else "." ++ padZeros f (n % 10 ^ f))

example : toFixed 6 (parseFloat "1.5") = "1.500000" := by decide
example : toFixed 8 (parseFloat "x") = "NaN" := by decide

/-- Insert a thousands separator after every third digit, working on the
reversed digit list. -/
def commaRev : ℕ → List Char → List Char
  | _, [] => []
  | i, c :: rest =>
    (if i ≠ 0 && i % 3 = 0 then [',', c] else [c]) ++ commaRev (i + 1) rest

/-- Render a natural number with en-US thousands grouping. -/
def groupCommas (n : ℕ) : String :=
  String.mk ((commaRev 0 (toString n).toList.reverse).reverse)

example : groupCommas 1234567 = "1,234,567" := by decide
example : groupCommas 37 = "37" := by decide

/-- Trim trailing zeros of a fraction-digit block but keep at least two
digits (minimumFractionDigits 2). -/
def fracTrim (l : List Char) : List Char :=
  let core := (l.reverse.dropWhile (fun c => c = '0')).reverse
  core ++ List.replicate (2 - core.length) '0'

/-- Model of `num.toLocaleString('en-US', { minimumFractionDigits: 2,
maximumFractionDigits: 6 })` on the exact fraction values of this
pipeline. -/
def toLocaleMinMax (q : Frac) : String :=
  let n := roundScaled q 6
  let sign := if q.num < 0 then "-" else ""
  sign ++ groupCommas (n / 10 ^ 6) ++ "." ++
    String.mk (fracTrim (padZeros 6 (n % 10 ^ 6)).toList)

/-- Model of `formatAmount` (`lib/utils/format.ts`): note the NaN branch
returns the single-quoted literal `0 ${symbol}` with no interpolation. -/
def formatAmount (amount symbol : String) : String :=
  match parseFloat amount with
  | .nan => "0 $\x7bsymbol\x7d"
  | .num q => toLocaleMinMax q ++ " " ++ symbol

example : formatAmount "1.5" "ETH" = "1.50 ETH" := by decide

/-- Inverse of `daysFromCivil`: the civil date of a day count from
1970-01-01 (standard civil-from-days computation). -/
def civilFromDays (z0 : ℤ) : ℤ × ℤ × ℤ :=
  let z := z0 + 719468
  let era := (if 0 ≤ z then z else z - 146096) / 146097
  let doe := z - era * 146097
  let yoe := (doe - doe / 1460 + doe / 36524 - doe / 146096) / 365
  let y := yoe + era * 400
  let doy := doe - (365 * yoe + yoe / 4 - yoe / 100)
  let mp := (5 * doy + 2) / 153
  let d := doy - (153 * mp + 2) / 5 + 1
  let m := mp + (if mp < 10 then 3 else -9)
  (if m ≤ 2 then y + 1 else y, m, d)

/-- Short month name used by the en-US locale. -/
def monthShort (m : ℤ) : String :=
  List.getD ["Jan", "Feb", "Mar", "Apr", "May", "Jun", "Jul", "Aug", "Sep", "Oct", "Nov", "Dec"]
    (m - 1).toNat "Jan"

/-- Two-digit zero-padded rendering. -/
def padTwo (n : ℕ) : String := padZeros 2 n

/-- Model of `date.toLocaleString('en-US', { month: 'short', day:
'numeric', year: 'numeric', hour: '2-digit', minute: '2-digit' })` for a
valid epoch-millisecond value (UTC rendering). -/
def localeFullString (msFrac : Frac) : String :=
  let ms := Int.fdiv msFrac.num (msFrac.den : ℤ)
  let days := Int.fdiv ms 86400000
  let rem := (ms - days * 86400000).toNat
  let ymd := civilFromDays days
  let hour := rem / 3600000
  let minute := rem / 60000 % 60
  let h12 := if hour % 12 = 0 then 12 else hour % 12
  let ampm := if hour < 12 then "AM" else "PM"
  monthShort ymd.2.1 ++ " " ++ toString ymd.2.2 ++ ", " ++ toString ymd.1 ++ ", " ++
    padTwo h12 ++ ":" ++ padTwo minute ++ " " ++ ampm

/-- Model of `formatFullDate` (`lib/utils/format.ts`): "N/A" for a
missing, empty or unparseable timestamp, otherwise the full en-US
date-time rendering. -/
def formatFullDate (timestamp : Option String) : String :=
  match timestamp with
  | none => "N/A"
  | some s =>
    if s = "" then "N/A"
    else
      match jsDateMs s with
      | .nan => "N/A"
      | .num t => localeFullString t

example : formatFullDate none = "N/A" := by decide
example : formatFullDate (some "2024-01-15T10:30:00Z") = "Jan 15, 2024, 10:30 AM" := by decide

/-!
Export (`lib/utils/export.ts` and the `handleExport` guard of
`InlineFilters`).  A serialized record is the ordered list of the ten
column values of the object literal in `exportTransactionsToXLSX`.
-/

/-- One exported record, exactly as `exportTransactionsToXLSX` builds
it, fields in the object-literal order. -/
def exportRow (tx : Transaction) : List String :=
  [ tx.hash,
    tx.fromAddress,
    tx.toAddress,
    toFixed 6 (parseFloat tx.amount),
    capitalize (statusStr tx.status),
    jsOr tx.gasLimit "N/A",
    jsOr tx.gasPrice "N/A",
    (if truthyO tx.gasLimit && truthyO tx.gasPrice then
       toFixed 8 (JSNum.mul (parseFloat (tx.gasLimit.getD "")) (parseFloat (tx.gasPrice.getD "")))
     else "0"),
    formatFullDate (jsOrOpt tx.timestamp tx.createdAt),
    jsOr tx.timestamp (jsOr tx.createdAt "N/A") ]

/-- The exported record as the spec describes it (section 4.5): hash,
from, to, amount to 6 decimals, capitalized status, gas limit or
placeholder when absent, gas price or placeholder when absent, fee =
gasLimit × gasPrice to 8 decimals or `0` when either is absent,
human-formatted full timestamp, raw timestamp/createdAt value. -/
def claimRow (tx : Transaction) : List String :=
  [ tx.hash,
    tx.fromAddress,
    tx.toAddress,
    toFixed 6 (parseFloat tx.amount),
    capitalize (statusStr tx.status),
    (match tx.gasLimit with | none => "N/A" | some g => g),
    (match tx.gasPrice with | none => "N/A" | some g => g),
    (match tx.gasLimit, tx.gasPrice with
     | some l, some p => toFixed 8 (JSNum.mul (parseFloat l) (parseFloat p))
     | _, _ => "0"),
    formatFullDate (match tx.timestamp with | some s => some s | none => tx.createdAt),
    (match tx.timestamp with
     | some s => s
     | none => match tx.createdAt with | some s => s | none => "N/A") ]

/-- Observable outcome of the export action: either nothing happens, or
a workbook with the given rows is written under the given filename. -/
inductive ExportAction where
  | skipped : ExportAction
  | written : List (List String) → String → ExportAction
deriving DecidableEq

/-- Model of `InlineFilters.handleExport`: an empty collection returns
before any workbook is built or written; otherwise
`exportTransactionsToXLSX(transactions, "transactions-<date>.xlsx")`
serializes every transaction and writes the file. -/
def handleExport (transactions : List Transaction) (today : String) : ExportAction :=
  if transactions.length = 0 then .skipped
  else .written (transactions.map exportRow) ("transactions-" ++ today ++ ".xlsx")

/-!
Search debounce.  The `SearchBar` component keeps the raw input in local
state, feeds it through `useDebounce(searchQuery, 300)` and propagates
each debounced value; its clear button propagates the empty string
synchronously.  The `useDebounce` hook itself is not part of the
repository sources available here, so its semantics are taken from the
spec.
-/

/-- Modelled from the spec: the repository's `hooks/use-debounce` hook
(not present under the available sources).  Spec section 4.3: a single
cancellable timer per input; each keystroke resets the timer; a value is
propagated only after a full quiescence window of `delay` ms since its
keystroke, so a keystroke followed within `delay` ms by another is never
propagated.  Input: the time-stamped keystroke sequence (strictly
increasing times); output: the time-stamped propagation sequence. -/
def debouncePropagations (delay : ℕ) : List (ℕ × String) → List (ℕ × String)
  | [] => []
  | (t, v) :: rest =>
    match rest with
    | [] => [(t + delay, v)]
    | (t2, _) :: _ =>
      if t + delay ≤ t2 then (t + delay, v) :: debouncePropagations delay rest
      else debouncePropagations delay rest

/-- Propagations of the `SearchBar` for a keystroke sequence: the
debounced values with the fixed 300 ms window. -/
def searchBarPropagations (keys : List (ℕ × String)) : List (ℕ × String) :=
  debouncePropagations 300 keys

/-- Model of `SearchBar.handleClear`: `onSearchChange('')` is invoked
synchronously at the clearing instant. -/
def searchBarClear (t : ℕ) : List (ℕ × String) := [(t, "")]

/-- Every consecutive keystroke gap is shorter than the window. -/
def rapidFire (delay : ℕ) : List (ℕ × String) → Bool
  | [] => true
  | [_] => true
  | (t, _) :: (t2, v2) :: rest => decide (t2 < t + delay) && rapidFire delay ((t2, v2) :: rest)

example : searchBarPropagations [(0, "a"), (100, "ab"), (200, "abc")] = [(500, "abc")] := by decide

/-!
View state controller: the combined state owned by `TransactionsPage`
(filter criteria) and `TransactionList` (sort, page, page size), and the
transitions its handlers perform.  The page-reset effect of
`TransactionList` watches `transactions.length` (the filtered length)
and `itemsPerPage`, so a filter mutation resets `currentPage` exactly
when it changes the filtered length; `handleSort` and
`handleItemsPerPageChange` always reset; the Previous/Next/page-number
buttons are rendered only when `totalPages > 1` and keep the page inside
`[1, totalPages]`.
-/

/-- Combined controller state. -/
structure UIState where
  view : ViewState
  sortField : SortField
  sortDirection : SortDirection
  currentPage : ℕ
  itemsPerPage : ℕ
deriving DecidableEq

/-- Length of the filtered collection under the current criteria. -/
def filteredCount (txs : List Transaction) (s : UIState) : ℕ :=
  (filteredTransactions txs s.view).length

/-- User intents reaching the controller. -/
inductive Intent where
  | setStatuses : List TransactionStatus → Intent
  | setDateFrom : Option ℤ → Intent
  | setDateTo : Option ℤ → Intent
  | setSearch : String → Intent
  | sortBy : SortField → Intent
  | prevPage : Intent
  | nextPage : Intent
  | gotoPage : ℕ → Intent
  | setItemsPerPage : ℕ → Intent
deriving DecidableEq

/-- Whether an intent mutates a filter criterion. -/
def Intent.isFilterMutation : Intent → Bool
  | .setStatuses _ => true
  | .setDateFrom _ => true
  | .setDateTo _ => true
  | .setSearch _ => true
  | _ => false

/-- Direction toggle of `handleSort` on a repeated field. -/
def toggleDir : SortDirection → SortDirection
  | .asc => .desc
  | .desc => .asc

/-- Page number shown by the i-th pagination button (`TransactionList`
page-window computation), for `totalPages > 5` shifted toward the
nearest boundary. -/
def pageNum (tp p k : ℕ) : ℕ :=
  if tp ≤ 5 then k + 1
  else if p ≤ 3 then k + 1
  else if tp - 2 ≤ p then tp - 4 + k
  else p - 2 + k

/-- Effect of a filter mutation: the new criteria are installed and the
page-reset effect fires when (and only when) the filtered length
changed. -/
def stepFilter (txs : List Transaction) (s : UIState) (vs2 : ViewState) : UIState :=
  let oldLen := (filteredTransactions txs s.view).length
  let newLen := (filteredTransactions txs vs2).length
  { s with view := vs2, currentPage := if newLen ≠ oldLen then 1 else s.currentPage }

/-- One controller transition. -/
def step (txs : List Transaction) (s : UIState) (i : Intent) : UIState :=
  match i with
  | .setStatuses l => stepFilter txs s { s.view with selectedStatuses := l }
  | .setDateFrom d => stepFilter txs s { s.view with dateFrom := d }
  | .setDateTo d => stepFilter txs s { s.view with dateTo := d }
  | .setSearch q => stepFilter txs s { s.view with searchQuery := q }
  | .sortBy f =>
    if s.sortField = f then { s with sortDirection := toggleDir s.sortDirection, currentPage := 1 }
    else { s with sortField := f, sortDirection := .desc, currentPage := 1 }
  | .prevPage =>
    if 1 < totalPages (filteredCount txs s) s.itemsPerPage then
      { s with currentPage := max 1 (s.currentPage - 1) }
    else s
  | .nextPage =>
    if 1 < totalPages (filteredCount txs s) s.itemsPerPage then
      { s with currentPage := min (totalPages (filteredCount txs s) s.itemsPerPage) (s.currentPage + 1) }
    else s
  | .gotoPage k =>
    let tp := totalPages (filteredCount txs s) s.itemsPerPage
    if 1 < tp && k < min 5 tp then { s with currentPage := pageNum tp s.currentPage k }
    else s
  | .setItemsPerPage v =>
    if v = 10 || v = 15 || v = 20 then { s with itemsPerPage := v, currentPage := 1 }
    else s

/-- Initial controller state: no filters, timestamp descending, page 1,
15 items per page. -/
def uiInit : UIState :=
  { view := { selectedStatuses := [], dateFrom := none, dateTo := none, searchQuery := "" },
    sortField := .timestamp, sortDirection := .desc, currentPage := 1, itemsPerPage := 15 }

/-- States reachable from the initial state over a fixed collection. -/
inductive Reachable (txs : List Transaction) : UIState → Prop where
  | init : Reachable txs uiInit
  | next : ∀ {s : UIState} (i : Intent), Reachable txs s → Reachable txs (step txs s i)

/-- The currentPage range invariant. -/
def pageInv (txs : List Transaction) (s : UIState) : Prop :=
  1 ≤ s.currentPage ∧ s.currentPage ≤ max 1 (totalPages (filteredCount txs s) s.itemsPerPage)

theorem pageInv_stepFilter (txs : List Transaction) (s : UIState) (vs2 : ViewState)
    (h : pageInv txs s) : pageInv txs (stepFilter txs s vs2) := by
  unfold pageInv stepFilter filteredCount at *
  by_cases hne : (filteredTransactions txs vs2).length = (filteredTransactions txs s.view).length
  · simp [hne]
    constructor
    · exact h.1
    · simpa [hne] using h.2
  · simp [hne]

theorem pageInv_step (txs : List Transaction) (s : UIState) (i : Intent)
    (h : pageInv txs s) : pageInv txs (step txs s i) := by
  cases i with
  | setStatuses l => exact pageInv_stepFilter txs s _ h
  | setDateFrom d => exact pageInv_stepFilter txs s _ h
  | setDateTo d => exact pageInv_stepFilter txs s _ h
  | setSearch q => exact pageInv_stepFilter txs s _ h
  | sortBy f =>
    unfold pageInv step filteredCount at *
    by_cases hf : s.sortField = f <;> simp [hf]
  | prevPage =>
    unfold pageInv step filteredCount at *
    by_cases htp : 1 < totalPages (filteredTransactions txs s.view).length s.itemsPerPage <;>
      simp [htp] <;> omega
  | nextPage =>
    unfold pageInv step filteredCount at *
    by_cases htp : 1 < totalPages (filteredTransactions txs s.view).length s.itemsPerPage <;>
      simp [htp] <;> omega
  | gotoPage k =>
    unfold pageInv step filteredCount at *
    by_cases hc : 1 < totalPages (filteredTransactions txs s.view).length s.itemsPerPage ∧
        k < min 5 (totalPages (filteredTransactions txs s.view).length s.itemsPerPage)
    · obtain ⟨h1, h2⟩ := hc
      simp [h1, h2, pageNum]
      generalize hq : totalPages (filteredTransactions txs s.view).length s.itemsPerPage = tp at *
      split <;> [omega; split <;> [omega; split <;> omega]]
    · rcases not_and_or.mp hc with hc1 | hc2
      · simp [hc1]
        exact ⟨h.1, le_max_iff.mp h.2⟩
      · simp [hc2]
        exact ⟨h.1, le_max_iff.mp h.2⟩
  | setItemsPerPage v =>
    unfold pageInv step filteredCount at *
    by_cases hv : v = 10 ∨ v = 15 ∨ v = 20
    · rcases hv with hv | hv | hv <;> simp [hv]
    · have h10 : v ≠ 10 := fun hh => hv (Or.inl hh)
      have h15 : v ≠ 15 := fun hh => hv (Or.inr (Or.inl hh))
      have h20 : v ≠ 20 := fun hh => hv (Or.inr (Or.inr hh))
      simp [h10, h15, h20]
      exact ⟨h.1, le_max_iff.mp h.2⟩

theorem pageInv_reachable (txs : List Transaction) (s : UIState)
    (h : Reachable txs s) : pageInv txs s := by
  induction h with
  | init => exact ⟨le_refl 1, le_max_left 1 _⟩
  | next i hr ih => exact pageInv_step txs _ i ih

/-!
Characterization of the sequential filter pipeline as a single
conjunctive predicate (spec section 4.1), and its monotonicity in the
status selection.
-/

/-- Per-transaction predicate of the status stage. -/
def statusB (vs : ViewState) (tx : Transaction) : Bool :=
  if vs.selectedStatuses.length > 0 then vs.selectedStatuses.contains tx.status else true

/-- Per-transaction predicate of the dateFrom stage. -/
def dateFromB (vs : ViewState) (tx : Transaction) : Bool :=
  match vs.dateFrom with
  | some f => JSNum.geb (effTime tx) (.num (Frac.ofInt f))
  | none => true

/-- Per-transaction predicate of the dateTo stage. -/
def dateToB (vs : ViewState) (tx : Transaction) : Bool :=
  match vs.dateTo with
  | some d => JSNum.leb (effTime tx) (.num (Frac.ofInt (endOfDay d)))
  | none => true

/-- Per-transaction predicate of the search stage. -/
def searchB (vs : ViewState) (tx : Transaction) : Bool :=
  if vs.searchQuery ≠ "" then
    strIncludes (toLowerJS tx.hash) (toLowerJS vs.searchQuery) ||
    strIncludes (toLowerJS tx.fromAddress) (toLowerJS vs.searchQuery) ||
    strIncludes (toLowerJS tx.toAddress) (toLowerJS vs.searchQuery)
  else true

theorem statusStage_eq (vs : ViewState) (l : List Transaction) :
    statusStage vs l = l.filter (statusB vs) := by
  unfold statusStage statusB
  by_cases h : vs.selectedStatuses.length > 0 <;> simp [h]

theorem dateFromStage_eq (vs : ViewState) (l : List Transaction) :
    dateFromStage vs l = l.filter (dateFromB vs) := by
  unfold dateFromStage dateFromB
  cases vs.dateFrom <;> simp

theorem dateToStage_eq (vs : ViewState) (l : List Transaction) :
    dateToStage vs l = l.filter (dateToB vs) := by
  unfold dateToStage dateToB
  cases vs.dateTo <;> simp

theorem searchStage_eq (vs : ViewState) (l : List Transaction) :
    searchStage vs l = l.filter (searchB vs) := by
  unfold searchStage searchB
  by_cases h : vs.searchQuery ≠ "" <;> simp [h]

theorem stageB_eq_passesB (vs : ViewState) (tx : Transaction) :
    (searchB vs tx && (dateToB vs tx && (dateFromB vs tx && statusB vs tx))) = passesB vs tx := by
  unfold statusB dateFromB dateToB searchB passesB statusPassB datePassB searchPassB
  cases hdf : vs.dateFrom <;> cases hdt : vs.dateTo <;> cases het : effTime tx <;>
    cases hss : vs.selectedStatuses <;> by_cases hq : vs.searchQuery = "" <;>
      simp [hq, JSNum.geb, JSNum.leb, Frac.ofInt, Bool.and_comm, Bool.and_assoc, Bool.and_left_comm]

theorem filteredTransactions_eq_filter (txs : List Transaction) (vs : ViewState) :
    filteredTransactions txs vs = txs.filter (passesB vs) := by
  unfold filteredTransactions
  rw [statusStage_eq, dateFromStage_eq, dateToStage_eq, searchStage_eq]
  simp only [List.filter_filter]
  exact List.filter_congr (fun tx _ => stageB_eq_passesB vs tx)

/-!
Claim theorems.
-/

/-- C1 counterexample: on the empty result set the code computes
`Math.ceil(0 / 15) = 0`, not the `max(1, ...) = 1` the claim states. -/
theorem C1_counterexample :
    totalPages 0 15 = 0 ∧ totalPagesClaim 0 15 = 1 ∧ totalPages 0 15 ≠ totalPagesClaim 0 15 := by
  decide

/-- C1 (amended): for every non-empty filtered-and-sorted sequence of n
transactions and every positive itemsPerPage, totalPages =
max(1, ceil(n / itemsPerPage)); when the result set is empty, totalPages
equals 0 (not 1) and the visible slice is empty. -/
theorem C1_amended (n ipp : ℕ) (h : 0 < ipp) :
    (0 < n → totalPages n ipp = totalPagesClaim n ipp) ∧
    totalPages 0 ipp = 0 ∧
    paginatedTransactions ([] : List Transaction) 1 ipp = [] := by
  refine ⟨?_, ?_, by simp [paginatedTransactions]⟩
  · intro hn
    unfold totalPages totalPagesClaim
    have h1 : 1 ≤ (n + ipp - 1) / ipp := by
      rw [Nat.le_div_iff_mul_le h]
      omega
    exact (max_eq_right h1).symm
  · unfold totalPages
    exact Nat.div_eq_of_lt (by omega)

/-- C1 witness: the amended statement evaluated at n = 37, ipp = 15. -/
theorem C1_amended_witness :
    0 < 15 ∧
    ((0 < 37 → totalPages 37 15 = totalPagesClaim 37 15) ∧
     totalPages 0 15 = 0 ∧
     paginatedTransactions ([] : List Transaction) 1 15 = []) :=
  ⟨by decide, C1_amended 37 15 (by decide)⟩

/-- C5: a transaction survives `filteredTransactions` exactly when it
passes the conjunction of the status criterion, the date-range criterion
(unparseable times failing any active bound) and the case-insensitive
search criterion; with no active criterion the filtered collection is
the raw collection. -/
theorem C5_filter_conjunction (txs : List Transaction) (vs : ViewState) :
    filteredTransactions txs vs = txs.filter (passesB vs) ∧
    filteredTransactions txs ⟨[], none, none, ""⟩ = txs := by
  refine ⟨filteredTransactions_eq_filter txs vs, ?_⟩
  rw [filteredTransactions_eq_filter]
  apply List.filter_eq_self.mpr
  intro tx _
  unfold passesB statusPassB datePassB searchPassB
  cases effTime tx <;> simp

/-- C6: the visible slice is exactly the elements at index range
[(currentPage-1)*itemsPerPage, currentPage*itemsPerPage) clipped to the
sequence bounds; with itemsPerPage = 15 and 37 rows, totalPages = 3 and
page 3 shows the 7 rows at indices 30 through 36. -/
theorem C6_slice {α : Type} (xs : List α) (p ipp i : ℕ) :
    ((paginatedTransactions xs p ipp)[i]? =
      if i < ipp then xs[(p - 1) * ipp + i]? else none) ∧
    totalPages 37 15 = 3 ∧
    paginatedTransactions (List.range 37) 3 15 = List.range' 30 7 := by
  refine ⟨?_, by decide, by decide⟩
  unfold paginatedTransactions
  rw [List.getElem?_take, List.getElem?_drop]

/-- C7: triggering export on an empty transaction collection is a no-op:
`handleExport` returns before any workbook is built or file written. -/
theorem C7_empty_export_noop (today : String) :
    handleExport [] today = ExportAction.skipped := by
  rfl

/-- C10: for every amount string whose parse is NaN, `formatAmount`
returns the literal uninterpolated string `0 ${symbol}` regardless of
the symbol argument. -/
theorem C10_literal_sentinel (s symbol : String) (h : parseFloat s = .nan) :
    formatAmount s symbol = "0 $\x7bsymbol\x7d" := by
  unfold formatAmount
  rw [h]

/-- C10 witness: evaluated at the unparseable amount "abc" with symbol
"XYZ". -/
theorem C10_witness :
    parseFloat "abc" = .nan ∧ formatAmount "abc" "XYZ" = "0 $\x7bsymbol\x7d" :=
  ⟨by decide, C10_literal_sentinel "abc" "XYZ" (by decide)⟩

/-- Transaction used by the C2 counterexample. -/
def c2tx : Transaction :=
  { hash := "h", fromAddress := "f", toAddress := "t", amount := "1", status := .confirmed }

/-- Non-empty selection not matching `c2tx`. -/
def c2vs : ViewState := ⟨[.pending], none, none, ""⟩

/-- The same view state after adding the `confirmed` status. -/
def c2vsAdded : ViewState := ⟨[.pending, .confirmed], none, none, ""⟩

/-- C2 counterexample: starting from the non-empty selection
`[pending]`, adding `confirmed` strictly increases the filtered count
(0 to 1) on a collection holding one confirmed transaction. -/
theorem C2_counterexample :
    c2vs.selectedStatuses ≠ [] ∧
    c2vsAdded.selectedStatuses = c2vs.selectedStatuses ++ [.confirmed] ∧
    (filteredTransactions [c2tx] c2vs).length < (filteredTransactions [c2tx] c2vsAdded).length := by
  decide

/-- Pointwise monotonicity of the composed predicate in the status
selection: a transaction passing a non-empty selection still passes
after a status is added. -/
theorem passesB_mono_status (vs : ViewState) (s : TransactionStatus)
    (h : vs.selectedStatuses ≠ []) (tx : Transaction)
    (hp : passesB vs tx = true) :
    passesB { vs with selectedStatuses := vs.selectedStatuses ++ [s] } tx = true := by
  unfold passesB statusPassB at hp ⊢
  rw [Bool.and_eq_true, Bool.and_eq_true] at hp ⊢
  refine ⟨⟨?_, hp.1.2⟩, hp.2⟩
  rw [Bool.or_eq_true] at hp ⊢
  rcases hp.1.1 with he | hc
  · exact absurd (List.isEmpty_iff.mp he) h
  · right
    simp only [List.contains_eq_any_beq] at hc ⊢
    simp at hc ⊢
    exact Or.inl hc

/-- C2 (amended): for a non-empty selection, adding a status never
DECREASES the filtered count (the filter becomes more permissive, so the
count can only grow or stay); removing all selections disables the
status criterion, so with no other active criterion the unfiltered
collection is restored. -/
theorem C2_amended (txs : List Transaction) (vs : ViewState) (s : TransactionStatus)
    (h : vs.selectedStatuses ≠ []) :
    (filteredTransactions txs vs).length ≤
      (filteredTransactions txs { vs with selectedStatuses := vs.selectedStatuses ++ [s] }).length ∧
    filteredTransactions txs ⟨[], vs.dateFrom, vs.dateTo, vs.searchQuery⟩ =
      searchStage vs (dateToStage vs (dateFromStage vs txs)) := by
  constructor
  · rw [filteredTransactions_eq_filter, filteredTransactions_eq_filter]
    exact (List.monotone_filter_right txs (fun tx hp => passesB_mono_status vs s h tx hp)).length_le
  · rfl

/-- C2 witness: the amended statement evaluated at a concrete collection
and selection. -/
theorem C2_amended_witness :
    c2vs.selectedStatuses ≠ [] ∧
    ((filteredTransactions [c2tx] c2vs).length ≤
      (filteredTransactions [c2tx]
        { c2vs with selectedStatuses := c2vs.selectedStatuses ++ [.confirmed] }).length ∧
     filteredTransactions [c2tx] ⟨[], c2vs.dateFrom, c2vs.dateTo, c2vs.searchQuery⟩ =
       searchStage c2vs (dateToStage c2vs (dateFromStage c2vs [c2tx]))) :=
  ⟨by decide, C2_amended [c2tx] c2vs .confirmed (by decide)⟩

/-- Transaction with an unparseable effective time. -/
def c4BadTime : Transaction :=
  { hash := "h", fromAddress := "f", toAddress := "t", amount := "1", status := .pending,
    timestamp := some "oops" }

/-- Transaction with a parseable positive effective time. -/
def c4GoodTime : Transaction :=
  { hash := "h", fromAddress := "f", toAddress := "t", amount := "1", status := .pending,
    timestamp := some "1970-01-02" }

/-- Transaction with an unparseable amount. -/
def c4BadAmount : Transaction :=
  { hash := "h", fromAddress := "f", toAddress := "t", amount := "x", status := .pending }

/-- Transaction with the parseable amount "-1". -/
def c4NegAmount : Transaction :=
  { hash := "h", fromAddress := "f", toAddress := "t", amount := "-1", status := .pending }

/-- C4 counterexample: the code comparator returns 0 (tie) for an
unparseable key against any other key, while comparing it as the
sentinel 0 (amount 0) would return -1 (resp. 1): NaN keys do not sort as
oldest / as the value 0. -/
theorem C4_counterexample :
    (compareTx .timestamp .asc c4BadTime c4GoodTime = 0 ∧
     compareTxClaim .timestamp .asc c4BadTime c4GoodTime = -1) ∧
    (compareTx .amount .asc c4BadAmount c4NegAmount = 0 ∧
     compareTxClaim .amount .asc c4BadAmount c4NegAmount = 1) := by
  decide

/-- C4 (amended): an unparseable effective time (resp. amount) yields a
NaN key; every numeric comparison against NaN is false, so the
comparator returns 0 against every other transaction — the transaction
compares as EQUAL to everything (position left to sort stability), not
as epoch 0 / value 0. -/
theorem C4_amended (d : SortDirection) (a b : Transaction) :
    (effTime a = .nan →
      compareTx .timestamp d a b = 0 ∧ compareTx .timestamp d b a = 0) ∧
    (parseFloat a.amount = .nan →
      compareTx .amount d a b = 0 ∧ compareTx .amount d b a = 0) := by
  constructor
  · intro h
    unfold compareTx cmpNum
    rw [h]
    cases effTime b <;> simp [JSNum.ltb, JSNum.gtb]
  · intro h
    unfold compareTx cmpNum
    rw [h]
    cases parseFloat b.amount <;> simp [JSNum.ltb, JSNum.gtb]

/-- Transaction with both an unparseable effective time and an
unparseable amount. -/
def c4Bad2 : Transaction :=
  { hash := "h", fromAddress := "f", toAddress := "t", amount := "x", status := .pending,
    timestamp := some "oops" }

/-- C4 witness: the amended statement evaluated at concrete
transactions. -/
theorem C4_amended_witness :
    (compareTx .timestamp .asc c4Bad2 c4GoodTime = 0 ∧
     compareTx .timestamp .asc c4GoodTime c4Bad2 = 0) ∧
    (compareTx .amount .asc c4Bad2 c4GoodTime = 0 ∧
     compareTx .amount .asc c4GoodTime c4Bad2 = 0) :=
  ⟨(C4_amended .asc c4Bad2 c4GoodTime).1 (by decide),
   (C4_amended .asc c4Bad2 c4GoodTime).2 (by decide)⟩

/-- C3 (amended): at every reachable controller state, currentPage lies
within [1, max(1, ceil(filteredCount/itemsPerPage))]; a mutation of a
filter criterion resets currentPage to 1 whenever it changes the
filtered count (one that leaves the count unchanged leaves currentPage
unchanged, because the reset effect watches the filtered length); a sort
change and any itemsPerPage change always reset currentPage to 1. -/
theorem C3_amended (txs : List Transaction) (s : UIState) (h : Reachable txs s)
    (i : Intent) (f : SortField) (v : ℕ) (hv : v = 10 ∨ v = 15 ∨ v = 20) :
    (1 ≤ s.currentPage ∧
      s.currentPage ≤ max 1 (totalPages (filteredCount txs s) s.itemsPerPage)) ∧
    (i.isFilterMutation = true →
      filteredCount txs (step txs s i) ≠ filteredCount txs s →
      (step txs s i).currentPage = 1) ∧
    (step txs s (Intent.sortBy f)).currentPage = 1 ∧
    (step txs s (Intent.setItemsPerPage v)).currentPage = 1 := by
  refine ⟨pageInv_reachable txs s h, ?_, ?_, ?_⟩
  · intro hfm hne
    cases i <;> simp [Intent.isFilterMutation] at hfm <;>
      · simp only [step, stepFilter, filteredCount] at hne ⊢
        simp only [ne_eq] at hne ⊢
        rw [if_pos hne]
  · unfold step
    by_cases hsf : s.sortField = f <;> simp [hsf]
  · unfold step
    rcases hv with hv | hv | hv <;> simp [hv]

/-- One transaction of each status used by the C3 counterexample. -/
def c3mk (st : TransactionStatus) : Transaction :=
  { hash := "h", fromAddress := "f", toAddress := "t", amount := "1", status := st }

/-- Collection of 12 pending and 12 confirmed transactions. -/
def c3txs : List Transaction :=
  List.replicate 12 (c3mk .pending) ++ List.replicate 12 (c3mk .confirmed)

/-- State after: set page size 10, select [pending], go to page 2. -/
def c3s3 : UIState :=
  step c3txs (step c3txs (step c3txs uiInit (.setItemsPerPage 10)) (.setStatuses [.pending]))
    Intent.nextPage

/-- State after additionally switching the selection to [confirmed]. -/
def c3s4 : UIState := step c3txs c3s3 (.setStatuses [.confirmed])

/-- C3 counterexample: switching the status selection from [pending] to
[confirmed] (a filter mutation) leaves the filtered count at 12, so the
length-keyed reset effect does not fire and currentPage stays at 2
instead of resetting to 1 as the claim requires. -/
theorem C3_counterexample :
    Reachable c3txs c3s4 ∧
    Intent.isFilterMutation (.setStatuses [.confirmed]) = true ∧
    c3s4.view.selectedStatuses ≠ c3s3.view.selectedStatuses ∧
    c3s3.currentPage = 2 ∧
    c3s4.currentPage = 2 := by
  refine ⟨?_, by decide, by decide, by decide, by decide⟩
  exact Reachable.next _ (Reachable.next _ (Reachable.next _ (Reachable.next _ Reachable.init)))

/-- C8: for every transaction with well-formed optional fields (present
gas and time strings are non-empty, as the data model guarantees for
decimal/ISO strings), the serialized record equals, in order: hash, from
address, to address, amount to a fixed 6 decimal places, capitalized
status, gas limit or a placeholder if absent, gas price or a
placeholder, transaction fee gasLimit × gasPrice to 8 decimal places or
`0` if either is absent, the human-formatted full timestamp, and the raw
timestamp/createdAt value. -/
theorem C8_export_record (tx : Transaction)
    (h1 : tx.gasLimit ≠ some "") (h2 : tx.gasPrice ≠ some "")
    (h3 : tx.timestamp ≠ some "") (h4 : tx.createdAt ≠ some "") :
    exportRow tx = claimRow tx := by
  unfold exportRow claimRow
  cases hl : tx.gasLimit <;> cases hp : tx.gasPrice <;>
    cases ht : tx.timestamp <;> cases hc : tx.createdAt <;>
      simp_all [jsOr, jsOrOpt, truthyO]

/-- Fully populated transaction used by the C8 witness. -/
def c8tx : Transaction :=
  { hash := "0xabc", fromAddress := "0xfrom", toAddress := "0xto", amount := "1.5",
    status := .pending, gasLimit := some "21000", gasPrice := some "0.00000002",
    timestamp := some "2024-01-15T10:30:00Z", createdAt := none }

/-- C8 witness: the record equality evaluated at a concrete transaction. -/
theorem C8_export_record_witness :
    c8tx.gasLimit ≠ some "" ∧ exportRow c8tx = claimRow c8tx :=
  ⟨by decide, C8_export_record c8tx (by decide) (by decide) (by decide) (by decide)⟩

/-- A rapid-fire keystroke sequence (every gap below the window)
debounces to the single propagation of its last value, one window after
the last keystroke. -/
theorem debounce_rapid (delay : ℕ) (ks : List (ℕ × String)) (t : ℕ) (v : String)
    (hlast : ks.getLast? = some (t, v)) (hfast : rapidFire delay ks = true) :
    debouncePropagations delay ks = [(t + delay, v)] := by
  induction ks with
  | nil => simp at hlast
  | cons hd tl ih =>
    cases tl with
    | nil =>
      obtain ⟨t0, v0⟩ := hd
      simp [List.getLast?] at hlast
      simp [debouncePropagations, hlast.1, hlast.2]
    | cons hd2 tl2 =>
      obtain ⟨t0, v0⟩ := hd
      obtain ⟨t1, v1⟩ := hd2
      rw [List.getLast?_cons_cons] at hlast
      unfold rapidFire at hfast
      rw [Bool.and_eq_true] at hfast
      obtain ⟨hlt, hrest⟩ := hfast
      rw [decide_eq_true_iff] at hlt
      have hred : debouncePropagations delay ((t0, v0) :: (t1, v1) :: tl2) =
          if t0 + delay ≤ t1 then
            (t0 + delay, v0) :: debouncePropagations delay ((t1, v1) :: tl2)
          else debouncePropagations delay ((t1, v1) :: tl2) := rfl
      rw [hred, if_neg (by omega)]
      exact ih hlast hrest

/-- C9: for a keystroke sequence whose gaps are all shorter than the
300 ms window, exactly one propagation occurs, carrying the final value,
exactly 300 ms after the last keystroke (so at or after it); superseded
intermediate values are never propagated; an explicit clear propagates
the empty string immediately at the clearing instant. -/
theorem C9_debounce (ks : List (ℕ × String)) (t : ℕ) (v : String) (tc : ℕ)
    (hlast : ks.getLast? = some (t, v)) (hfast : rapidFire 300 ks = true) :
    searchBarPropagations ks = [(t + 300, v)] ∧ searchBarClear tc = [(tc, "")] :=
  ⟨debounce_rapid 300 ks t v hlast hfast, rfl⟩

/-- C9 witness: keystrokes "a","ab","abc" at t = 0, 100, 200 ms yield
exactly one propagation, of "abc", at t = 500 ms. -/
theorem C9_debounce_witness :
    ([(0, "a"), (100, "ab"), (200, "abc")] : List (ℕ × String)).getLast? = some (200, "abc") ∧
    rapidFire 300 [(0, "a"), (100, "ab"), (200, "abc")] = true ∧
    (searchBarPropagations [(0, "a"), (100, "ab"), (200, "abc")] = [(500, "abc")] ∧
     searchBarClear 7 = [(7, "")]) :=
  ⟨by decide, by decide, C9_debounce [(0, "a"), (100, "ab"), (200, "abc")] 200 "abc" 7 (by decide) (by decide)⟩

/-- C3 witness: the amended statement evaluated at the initial state
over the empty collection. -/
theorem C3_amended_witness :
    (1 ≤ uiInit.currentPage ∧
      uiInit.currentPage ≤ max 1 (totalPages (filteredCount [] uiInit) uiInit.itemsPerPage)) ∧
    ((Intent.setSearch "x").isFilterMutation = true →
      filteredCount [] (step [] uiInit (.setSearch "x")) ≠ filteredCount [] uiInit →
      (step [] uiInit (.setSearch "x")).currentPage = 1) ∧
    (step [] uiInit (Intent.sortBy .amount)).currentPage = 1 ∧
    (step [] uiInit (Intent.setItemsPerPage 10)).currentPage = 1 :=
  C3_amended [] uiInit Reachable.init (.setSearch "x") .amount 10 (Or.inl rfl)
